import Mathlib

/-!
# Verification of the order-placement and inventory pipeline

Shallow embedding of the checkout (`POST /payments/verify`), order-tracking
(`POST /orders/tracking`) and admin variant-update handlers of the storefront
server, together with the storage-layer operations they call.  Handler logic is
translated line by line from the route handlers; storage operations whose
implementation is not part of the sources are modelled from the specification
(marked `Modelled from the spec:` in their doc comments).

Money amounts are rationals (the server stores JavaScript numbers and divides
the client-supplied paise amount by 100).
-/

/-- A product row (the columns the pipeline reads: id, name, price). -/
structure Product where
  id : Nat
  name : String
  price : ℚ
  deriving Repr, DecidableEq

/-- A product-variant row: price, optional discount price, stock counter. -/
structure Variant where
  id : Nat
  productId : Nat
  price : ℚ
  discountPrice : Option ℚ
  stockQuantity : Nat
  deriving Repr, DecidableEq

/-- A stored cart line: (productId, variantId, quantity), owned by a session. -/
structure CartLine where
  productId : Nat
  variantId : Nat
  quantity : Nat
  deriving Repr, DecidableEq

/-- A cart line as returned by `storage.getCart`: resolved to the live product
and variant at read time. -/
structure CartItem where
  product : Product
  variant : Variant
  quantity : Nat
  deriving Repr, DecidableEq

/-- One entry of an order's status timeline. -/
structure TimelineEntry where
  status : String
  message : String
  date : String
  deriving Repr, DecidableEq

/-- Customer contact snapshot submitted with the checkout request and stored
on the order row. -/
structure CustomerInfo where
  name : String
  email : String
  address : String
  deriving Repr, DecidableEq

/-- An order row as created by the checkout handler. -/
structure Order where
  id : Nat
  userId : Option Nat
  sessionId : String
  paymentId : Option String
  total : ℚ
  status : String
  customerInfo : CustomerInfo
  paymentMethod : String
  trackingId : String
  statusTimeline : List TimelineEntry
  deriving Repr, DecidableEq

/-- An order-item row: quantity and the unit price captured at purchase time. -/
structure OrderItem where
  orderId : Nat
  productId : Nat
  variantId : Nat
  quantity : Nat
  price : ℚ
  deriving Repr, DecidableEq

/-- A payment row (electronic payments only). -/
structure Payment where
  userId : Nat
  orderId : Nat
  razorpayPaymentId : Option String
  amount : ℚ
  currency : String
  status : String
  deriving Repr, DecidableEq

/-- One discount redemption row. -/
structure DiscountUsage where
  discountId : Nat
  userId : Nat
  sessionId : String
  orderId : Nat
  deriving Repr, DecidableEq

/-- A user row (the columns the tracking lookup reads). -/
structure User where
  id : Nat
  name : String
  email : String
  deriving Repr, DecidableEq

/-- The persistent store the handlers operate on. -/
structure StoreState where
  products : List Product
  variants : List Variant
  users : List User
  carts : List (String × List CartLine)
  orders : List Order
  orderItems : List OrderItem
  payments : List Payment
  discountUsages : List DiscountUsage
  nextOrderId : Nat
  deriving Repr, DecidableEq

/-- Modelled from the spec: `storage.getCart` (§4.2 Cart Snapshot) — the
session's ordered cart lines, each resolved to its live product and variant at
read time; the storage implementation itself is not among the sources. -/
def getCart (st : StoreState) (sessionId : String) : List CartItem :=
  match st.carts.find? (fun c => c.1 == sessionId) with
  | none => []
  | some c =>
      c.2.filterMap (fun line =>
        match st.products.find? (fun p => p.id == line.productId),
              st.variants.find? (fun v => v.id == line.variantId) with
        | some p, some v => some ⟨p, v, line.quantity⟩
        | _, _ => none)

/-- The atomic per-variant conditional reserve on one variant row: succeed and
decrement only when enough stock is available. -/
def reserveVariant (v : Variant) (qty : Nat) : Bool × Variant :=
  if qty ≤ v.stockQuantity then
    (true, { v with stockQuantity := v.stockQuantity - qty })
  else
    (false, v)

/-- Modelled from the spec: `storage.validateStockAvailability` — the Stock
Ledger's `checkAndReserve(variantId, quantity)` (§4.1): an atomic per-variant
check-and-decrement, succeeding only when available stock covers the request;
the storage implementation itself is not among the sources.  Returns whether
the reservation succeeded together with the updated variant table. -/
def validateStockAvailability (vs : List Variant) (variantId qty : Nat) :
    Bool × List Variant :=
  match vs with
  | [] => (false, [])
  | v :: rest =>
      if v.id == variantId then
        let r := reserveVariant v qty
        (r.1, r.2 :: rest)
      else
        let r := validateStockAvailability rest variantId qty
        (r.1, v :: r.2)

/-- The checkout handler's stock-validation loop: every line's reservation is
attempted (the handler issues them all via `Promise.all`), and the first
failing line's product name is reported. -/
def validateStockLoop (vs : List Variant) (items : List CartItem) :
    Option String × List Variant :=
  match items with
  | [] => (none, vs)
  | item :: rest =>
      let r := validateStockAvailability vs item.variant.id item.quantity
      let r2 := validateStockLoop r.2 rest
      if r.1 then
        (r2.1, r2.2)
      else
        (some ("Insufficient stock for " ++ item.product.name), r2.2)

/-- The field values the handler passes to `storage.createOrder`. -/
structure OrderData where
  userId : Option Nat
  sessionId : String
  paymentId : Option String
  total : ℚ
  status : String
  customerInfo : CustomerInfo
  paymentMethod : String
  trackingId : String
  statusTimeline : List TimelineEntry
  deriving Repr, DecidableEq

/-- Modelled from the spec: `storage.createOrder` (§4.5 step 5) — persist the
Order row and return it; the storage implementation itself is not among the
sources.  The new row receives the next free identifier. -/
def createOrder (st : StoreState) (d : OrderData) : Order × StoreState :=
  let o : Order :=
    { id := st.nextOrderId, userId := d.userId, sessionId := d.sessionId,
      paymentId := d.paymentId, total := d.total, status := d.status,
      customerInfo := d.customerInfo, paymentMethod := d.paymentMethod,
      trackingId := d.trackingId, statusTimeline := d.statusTimeline }
  (o, { st with orders := st.orders ++ [o], nextOrderId := st.nextOrderId + 1 })

/-- Modelled from the spec: `storage.createOrderItem` (§4.5 step 5) — persist
one Order Item row; the storage implementation itself is not among the
sources. -/
def createOrderItem (st : StoreState) (it : OrderItem) : StoreState :=
  { st with orderItems := st.orderItems ++ [it] }

/-- The handler's order-item loop: one `storage.createOrderItem` per cart
line, with `price: item.variant.discountPrice ?? item.variant.price`. -/
def createOrderItems (st : StoreState) (orderId : Nat)
    (items : List CartItem) : StoreState :=
  match items with
  | [] => st
  | item :: rest =>
      let st2 := createOrderItem st
        { orderId := orderId, productId := item.product.id,
          variantId := item.variant.id, quantity := item.quantity,
          price := item.variant.discountPrice.getD item.variant.price }
      createOrderItems st2 orderId rest

/-- Modelled from the spec: `storage.createPayment` (§4.5 step 6) — persist
the Payment row referencing the order; the storage implementation itself is
not among the sources. -/
def createPayment (st : StoreState) (p : Payment) : Payment × StoreState :=
  (p, { st with payments := st.payments ++ [p] })

/-- Modelled from the spec: `storage.applyDiscount` (§4.3) — record one
redemption by inserting a Discount Usage row; the storage implementation
itself is not among the sources. -/
def applyDiscount (st : StoreState) (discountId userId : Nat)
    (sessionId : String) (orderId : Nat) : StoreState :=
  { st with discountUsages :=
      st.discountUsages ++ [⟨discountId, userId, sessionId, orderId⟩] }

/-- Modelled from the spec: `storage.clearCart` (§4.2) — drop the session's
cart lines; the storage implementation itself is not among the sources. -/
def clearCart (st : StoreState) (sessionId : String) : StoreState :=
  { st with carts := st.carts.filter (fun c => c.1 != sessionId) }

/-- The body of a `POST /payments/verify` request, as destructured by the
handler. -/
structure VerifyRequest where
  sessionId : Option String
  razorpayPaymentId : Option String
  razorpayOrderId : Option String
  razorpaySignature : Option String
  amount : ℚ
  currency : String
  customerInfo : CustomerInfo
  paymentMethod : String
  appliedDiscountId : Option Nat
  deriving Repr, DecidableEq

/-- The handler's HTTP outcome: `res.json({message, order, payment})` on
success, `res.status(s).json({message, error?})` on failure. -/
inductive VerifyResponse where
  | success (message : String) (order : Order) (payment : Option Payment)
  | failure (status : Nat) (message : String) (error : Option String)
  deriving Repr, DecidableEq

/-- Result of one checkout request: the HTTP response, the store afterwards,
and whether the signature verification (HMAC compare) was executed. -/
structure CheckoutResult where
  response : VerifyResponse
  state : StoreState
  verifierCalled : Bool
  deriving Repr, DecidableEq

/-- JavaScript falsiness of an optional string field (`!x`): absent or empty. -/
def strMissing (o : Option String) : Bool :=
  match o with
  | none => true
  | some s => s == ""

/-- The checkout pipeline from the cart read onwards (handler lines after the
signature branch): get cart, reject an empty cart, validate stock for every
line, create the order, its items, the payment row for electronic payments,
best-effort discount recording, clear the cart, respond.  `trackingId` and
`now` stand for the randomly generated tracking code and the current time;
`discountApplyFails` models `storage.applyDiscount` throwing (the handler
catches and continues). -/
def checkoutPipeline (st : StoreState) (user : User) (sessionId : String)
    (req : VerifyRequest) (trackingId now : String)
    (discountApplyFails verifierCalled : Bool) : CheckoutResult :=
  let items := getCart st sessionId
  if items.isEmpty then
    ⟨.failure 400 "No items in cart to create order" none, st, verifierCalled⟩
  else
    let r := validateStockLoop st.variants items
    let st2 := { st with variants := r.2 }
    match r.1 with
    | some msg =>
        ⟨.failure 500 "Failed to process order" (some msg), st2, verifierCalled⟩
    | none =>
        let co := createOrder st2
          { userId := some user.id, sessionId := sessionId,
            paymentId := if req.paymentMethod == "razorpay"
                         then req.razorpayPaymentId else none,
            total := req.amount / 100, status := "confirmed",
            customerInfo := req.customerInfo,
            paymentMethod := req.paymentMethod, trackingId := trackingId,
            statusTimeline :=
              [⟨"confirmed", "Your order has been placed successfully", now⟩] }
        let order := co.1
        let st4 := createOrderItems co.2 order.id items
        let pr : Option Payment × StoreState :=
          if req.paymentMethod == "razorpay" then
            let cp := createPayment st4
              { userId := user.id, orderId := order.id,
                razorpayPaymentId := req.razorpayPaymentId,
                amount := req.amount / 100, currency := req.currency,
                status := "completed" }
            (some cp.1, cp.2)
          else (none, st4)
        let st6 :=
          match req.appliedDiscountId with
          | some did =>
              if did != 0 then
                if discountApplyFails then pr.2
                else applyDiscount pr.2 did user.id sessionId order.id
              else pr.2
          | none => pr.2
        let st7 := clearCart st6 sessionId
        ⟨.success (if req.paymentMethod == "cod"
                   then "Order placed successfully"
                   else "Payment successful and order created")
          order pr.1, st7, verifierCalled⟩

/-- The `POST /payments/verify` handler: session check, then for
`paymentMethod == "razorpay"` the required-fields check and the HMAC-SHA256
signature comparison over `razorpayOrderId + "|" + razorpayPaymentId` under
the server secret, then the checkout pipeline.  `hmac key msg` stands for
`crypto.createHmac("sha256", key).update(msg).digest("hex")`. -/
def paymentsVerify (st : StoreState) (user : User) (req : VerifyRequest)
    (hmac : String → String → String) (secret : String)
    (trackingId now : String) (discountApplyFails : Bool) : CheckoutResult :=
  let sessionId := req.sessionId.getD ""
  if sessionId == "" then
    ⟨.failure 400 "Missing session ID" none, st, false⟩
  else if req.paymentMethod == "razorpay" then
    if strMissing req.razorpayPaymentId || strMissing req.razorpayOrderId
        || strMissing req.razorpaySignature then
      ⟨.failure 400 "Missing required payment fields" none, st, false⟩
    else
      let body := req.razorpayOrderId.getD "" ++ "|"
        ++ req.razorpayPaymentId.getD ""
      let expectedSignature := hmac secret body
      if expectedSignature != req.razorpaySignature.getD "" then
        ⟨.failure 400 "Invalid payment signature" none, st, true⟩
      else
        checkoutPipeline st user sessionId req trackingId now
          discountApplyFails true
  else
    checkoutPipeline st user sessionId req trackingId now
      discountApplyFails false

/-- JavaScript's `String.prototype.trim`: strip leading and trailing
whitespace. -/
def jsTrim (s : String) : String :=
  ⟨((s.data.dropWhile Char.isWhitespace).reverse.dropWhile
      Char.isWhitespace).reverse⟩

/-- JavaScript's `String.prototype.toLowerCase` (ASCII case folding). -/
def jsToLower (s : String) : String :=
  ⟨s.data.map Char.toLower⟩

/-- Outcome of the `POST /orders/tracking` handler. -/
inductive TrackResult where
  | badRequest (message : String)
  | notFound (message : String)
  | found (orderNumber status : String) (items : List (String × Nat × ℚ))
      (trackingEvents : List TimelineEntry)
  deriving Repr, DecidableEq

/-- The item list of the tracking response: the order's items, each resolved
to its product and rendered as `{name, quantity, price: product.price}`. -/
def trackedItems (st : StoreState) (orderId : Nat) : List (String × Nat × ℚ) :=
  (st.orderItems.filter (fun it => it.orderId == orderId)).filterMap
    (fun it =>
      (st.products.find? (fun p => p.id == it.productId)).map
        (fun p => (p.name, it.quantity, p.price)))

/-- The `POST /orders/tracking` handler: reject blank inputs, find the first
order whose trackingId equals the trimmed order number and whose userId is not
null, resolve its owning user, and compare the supplied email (trimmed,
lowercased) against that user's email (lowercased); any miss is the same
404 not-found. -/
def trackOrder (st : StoreState) (orderNumber email : String) : TrackResult :=
  if jsTrim orderNumber == "" || jsTrim email == "" then
    .badRequest "Order number and email are required"
  else
    match st.orders.find?
        (fun o => o.trackingId == jsTrim orderNumber && o.userId.isSome) with
    | none =>
        .notFound "No order found with this order number and email combination."
    | some o =>
        match o.userId.bind (fun uid => st.users.find? (fun u => u.id == uid)) with
        | none =>
            .notFound
              "No order found with this order number and email combination."
        | some u =>
            if jsToLower u.email != jsToLower (jsTrim email) then
              .notFound
                "No order found with this order number and email combination."
            else
              .found o.trackingId o.status (trackedItems st o.id)
                o.statusTimeline

/-- The admin product-update handler's per-variant write (step "Update
existing variants"): set price, discountPrice and stockQuantity on the
variant row with the given id, touching no other table. -/
def updateVariant (st : StoreState) (variantId : Nat) (price : ℚ)
    (discountPrice : Option ℚ) (stockQuantity : Nat) : StoreState :=
  { st with variants := st.variants.map (fun v =>
      if v.id == variantId then
        { v with price := price, discountPrice := discountPrice,
                 stockQuantity := stockQuantity }
      else v) }

/-- The email-update write of the change-email handler:
`db.update(users).set({email: value}).where(eq(users.id, user.id))`. -/
def changeUserEmail (st : StoreState) (userId : Nat) (value : String) :
    StoreState :=
  { st with users := st.users.map (fun u =>
      if u.id == userId then { u with email := value } else u) }

/-- `k` single-unit reservation attempts against one variant table, run one
after another through the handler's `validateStockAvailability`; returns the
number of successful reservations and the final variant table.  Because the
Stock Ledger's check-and-decrement is atomic per variant (§4.1), any
interleaving of `k` concurrent attempts is equivalent to some serialization,
and all attempts here are identical, so this captures every interleaving. -/
def runLedger (vs : List Variant) (variantId : Nat) : Nat → Nat × List Variant
  | 0 => (0, vs)
  | k + 1 =>
      let r := validateStockAvailability vs variantId 1
      let r2 := runLedger r.2 variantId k
      ((if r.1 then 1 else 0) + r2.1, r2.2)

/-- The cart's true total: sum over lines of effective unit price
(discount price if set, else price) times quantity. -/
def cartLinesTotal (items : List CartItem) : ℚ :=
  (items.map
    (fun it =>
      it.variant.discountPrice.getD it.variant.price * (it.quantity : ℚ))).sum

/-- The order record the checkout pipeline persists when it reaches step 5
(`storage.createOrder` call site, handler lines 1606-1622). -/
def pipelineOrder (st : StoreState) (user : User) (sessionId : String)
    (req : VerifyRequest) (trackingId now : String) : Order :=
  { id := st.nextOrderId, userId := some user.id, sessionId := sessionId,
    paymentId := if req.paymentMethod == "razorpay" then req.razorpayPaymentId
                 else none,
    total := req.amount / 100, status := "confirmed",
    customerInfo := req.customerInfo, paymentMethod := req.paymentMethod,
    trackingId := trackingId,
    statusTimeline :=
      [⟨"confirmed", "Your order has been placed successfully", now⟩] }

/-- The payment record the pipeline persists for electronic payments
(handler lines 1637-1645). -/
def pipelinePayment (st : StoreState) (user : User) (req : VerifyRequest) :
    Payment :=
  { userId := user.id, orderId := st.nextOrderId,
    razorpayPaymentId := req.razorpayPaymentId, amount := req.amount / 100,
    currency := req.currency, status := "completed" }

/-! ### Concrete scenario fixtures -/

/-- A deterministic stand-in for the HMAC function in concrete runs. -/
def exHmac : String → String → String := fun key msg => key ++ ":" ++ msg

/-- The authenticated user of the concrete scenarios. -/
def exUser : User := ⟨1, "Asha", "asha@x.com"⟩

/-- Contact snapshot submitted with the concrete checkout requests. -/
def exInfo : CustomerInfo := ⟨"Asha", "asha@x.com", "12 Farm Lane"⟩

/-- Scenario store for C1: variant 5 of product 10 priced 100, stock 2, and a
session cart holding 2 units of it. -/
def c1State : StoreState :=
  { products := [⟨10, "Coffee", 100⟩],
    variants := [⟨5, 10, 100, none, 2⟩],
    users := [exUser],
    carts := [("sess1", [⟨10, 5, 2⟩])],
    orders := [], orderItems := [], payments := [], discountUsages := [],
    nextOrderId := 1 }

/-- C1 checkout request: COD, amount 20000 paise. -/
def c1Req : VerifyRequest :=
  { sessionId := some "sess1", razorpayPaymentId := none,
    razorpayOrderId := none, razorpaySignature := none, amount := 20000,
    currency := "INR", customerInfo := exInfo, paymentMethod := "cod",
    appliedDiscountId := none }

/-- The C1 checkout run. -/
def c1Result : CheckoutResult :=
  paymentsVerify c1State exUser c1Req exHmac "sec" "ABC123" "2025-01-01" false

/-- The order the C1 run creates. -/
def c1Order : Order :=
  { id := 1, userId := some 1, sessionId := "sess1", paymentId := none,
    total := 200, status := "confirmed", customerInfo := exInfo,
    paymentMethod := "cod", trackingId := "ABC123",
    statusTimeline :=
      [⟨"confirmed", "Your order has been placed successfully",
        "2025-01-01"⟩] }

/-- Scenario store for C3: line 1 (variant 1, qty 1, stock 5) passes the stock
check, line 2 (variant 2, qty 3, stock 2) fails it. -/
def c3State : StoreState :=
  { products := [⟨10, "Coffee", 100⟩, ⟨11, "Beans", 150⟩],
    variants := [⟨1, 10, 100, none, 5⟩, ⟨2, 11, 150, none, 2⟩],
    users := [exUser],
    carts := [("sess3", [⟨10, 1, 1⟩, ⟨11, 2, 3⟩])],
    orders := [], orderItems := [], payments := [], discountUsages := [],
    nextOrderId := 1 }

/-- C3 checkout request: COD. -/
def c3Req : VerifyRequest :=
  { sessionId := some "sess3", razorpayPaymentId := none,
    razorpayOrderId := none, razorpaySignature := none, amount := 55000,
    currency := "INR", customerInfo := exInfo, paymentMethod := "cod",
    appliedDiscountId := none }

/-- The C3 checkout run. -/
def c3Result : CheckoutResult :=
  paymentsVerify c3State exUser c3Req exHmac "sec" "DEF456" "2025-01-01" false

/-- Scenario store for C6: one variant in stock and a one-line session cart,
owned by a user whose email is `old@x.com` at checkout time. -/
def c6State : StoreState :=
  { products := [⟨10, "Coffee", 100⟩],
    variants := [⟨5, 10, 100, none, 2⟩],
    users := [⟨1, "Asha", "old@x.com"⟩],
    carts := [("sess6", [⟨10, 5, 1⟩])],
    orders := [], orderItems := [], payments := [], discountUsages := [],
    nextOrderId := 1 }

/-- C6 checkout request: COD, customer snapshot email `old@x.com`. -/
def c6Req : VerifyRequest :=
  { sessionId := some "sess6", razorpayPaymentId := none,
    razorpayOrderId := none, razorpaySignature := none, amount := 10000,
    currency := "INR",
    customerInfo := ⟨"Asha", "old@x.com", "12 Farm Lane"⟩,
    paymentMethod := "cod", appliedDiscountId := none }

/-- Store after the C6 checkout and a subsequent change of the user's account
email to `new@x.com` (the order's captured snapshot keeps `old@x.com`). -/
def c6Final : StoreState :=
  changeUserEmail
    (paymentsVerify c6State ⟨1, "Asha", "old@x.com"⟩ c6Req exHmac "sec"
      "ABC123" "2025-01-01" false).state
    1 "new@x.com"

/-- C7 checkout request: the C1 request with a discount applied. -/
def c7Req : VerifyRequest :=
  { c1Req with appliedDiscountId := some 7 }

/-- The order created by the C6 checkout: the customer snapshot keeps the
email captured at order time. -/
def c6Order : Order :=
  { id := 1, userId := some 1, sessionId := "sess6", paymentId := none,
    total := 100, status := "confirmed",
    customerInfo := ⟨"Asha", "old@x.com", "12 Farm Lane"⟩,
    paymentMethod := "cod", trackingId := "ABC123",
    statusTimeline :=
      [⟨"confirmed", "Your order has been placed successfully",
        "2025-01-01"⟩] }

/-- Scenario store for C9: no cart lines at all for the session. -/
def c9State : StoreState :=
  { products := [⟨10, "Coffee", 100⟩],
    variants := [⟨5, 10, 100, none, 2⟩],
    users := [exUser],
    carts := [],
    orders := [], orderItems := [], payments := [], discountUsages := [],
    nextOrderId := 1 }

/-- C9 request: electronic payment with a signature that does not match
`exHmac "sec" "order_1|pay_1" = "sec:order_1|pay_1"`. -/
def c9BadReq : VerifyRequest :=
  { sessionId := some "sess9", razorpayPaymentId := some "pay_1",
    razorpayOrderId := some "order_1", razorpaySignature := some "WRONG",
    amount := 10000, currency := "INR", customerInfo := exInfo,
    paymentMethod := "razorpay", appliedDiscountId := none }

/-- C9 request: electronic payment with the signature that `exHmac` deems
valid. -/
def c9GoodReq : VerifyRequest :=
  { c9BadReq with razorpaySignature := some "sec:order_1|pay_1" }

/-- Scenario store for C10: cart worth 200 at live prices. -/
def c10State : StoreState :=
  { products := [⟨10, "Coffee", 100⟩],
    variants := [⟨5, 10, 100, none, 2⟩],
    users := [exUser],
    carts := [("sess10", [⟨10, 5, 2⟩])],
    orders := [], orderItems := [], payments := [], discountUsages := [],
    nextOrderId := 1 }

/-- C10 request: the client supplies amount 500 paise although the cart's
true total is 200 rupees. -/
def c10Req : VerifyRequest :=
  { sessionId := some "sess10", razorpayPaymentId := none,
    razorpayOrderId := none, razorpaySignature := none, amount := 500,
    currency := "INR", customerInfo := exInfo, paymentMethod := "cod",
    appliedDiscountId := none }

/-- The C10 checkout run. -/
def c10Result : CheckoutResult :=
  paymentsVerify c10State exUser c10Req exHmac "sec" "GHI789" "2025-01-01"
    false

/-- The order the C10 run creates: its total is the client-supplied amount
divided by 100 (5 rupees), not the cart's true total (200 rupees). -/
def c10Order : Order :=
  { id := 1, userId := some 1, sessionId := "sess10", paymentId := none,
    total := 5, status := "confirmed", customerInfo := exInfo,
    paymentMethod := "cod", trackingId := "GHI789",
    statusTimeline :=
      [⟨"confirmed", "Your order has been placed successfully",
        "2025-01-01"⟩] }

/-! ### Helper lemmas -/

theorem createOrderItems_orders (st : StoreState) (oid : Nat)
    (items : List CartItem) : (createOrderItems st oid items).orders = st.orders := by
  induction items generalizing st with
  | nil => rfl
  | cons item rest ih => simpa [createOrderItems, createOrderItem] using ih _

theorem createOrderItems_payments (st : StoreState) (oid : Nat)
    (items : List CartItem) :
    (createOrderItems st oid items).payments = st.payments := by
  induction items generalizing st with
  | nil => rfl
  | cons item rest ih => simpa [createOrderItems, createOrderItem] using ih _

theorem createOrderItems_orderItems (st : StoreState) (oid : Nat)
    (items : List CartItem) :
    (createOrderItems st oid items).orderItems =
      st.orderItems ++ items.map (fun item =>
        { orderId := oid, productId := item.product.id,
          variantId := item.variant.id, quantity := item.quantity,
          price := item.variant.discountPrice.getD item.variant.price }) := by
  induction items generalizing st with
  | nil => simp [createOrderItems]
  | cons item rest ih => simp [createOrderItems, createOrderItem, ih]

theorem runLedger_singleton (i pid : Nat) (pr : ℚ) (dp : Option ℚ) :
    ∀ k s : Nat,
      runLedger [⟨i, pid, pr, dp, s⟩] i k
        = (min k s, [⟨i, pid, pr, dp, s - k⟩]) := by
  intro k
  induction k with
  | zero => intro s; simp [runLedger]
  | succ k ih =>
      intro s
      cases s with
      | zero =>
          simp [runLedger, validateStockAvailability, reserveVariant, ih]
      | succ t =>
          simp only [runLedger, validateStockAvailability, reserveVariant]
          simp only [beq_self_eq_true, if_true, Nat.le_add_left,
            Nat.add_sub_cancel]
          simp only [ih t, Prod.mk.injEq, List.cons.injEq, and_true,
            Variant.mk.injEq, true_and]
          constructor
          · omega
          · omega

theorem validateStockLoop_some (vs : List Variant) (items : List CartItem)
    (msg : String) (h : (validateStockLoop vs items).1 = some msg) :
    ∃ item ∈ items, msg = "Insufficient stock for " ++ item.product.name := by
  induction items generalizing vs with
  | nil => simp [validateStockLoop] at h
  | cons item rest ih =>
      simp only [validateStockLoop] at h
      by_cases hr : (validateStockAvailability vs item.variant.id
          item.quantity).1 = true
      · simp only [hr, if_true] at h
        obtain ⟨it, hin, hmsg⟩ := ih _ h
        exact ⟨it, List.mem_cons_of_mem _ hin, hmsg⟩
      · simp only [hr, if_false, Bool.false_eq_true] at h
        exact ⟨item, List.mem_cons_self _ _, (Option.some_injective _ h).symm⟩

theorem clearCart_orderItems (st : StoreState) (s : String) :
    (clearCart st s).orderItems = st.orderItems := rfl

theorem clearCart_orders (st : StoreState) (s : String) :
    (clearCart st s).orders = st.orders := rfl

theorem clearCart_payments (st : StoreState) (s : String) :
    (clearCart st s).payments = st.payments := rfl

theorem applyDiscount_orderItems (st : StoreState) (d u : Nat) (s : String)
    (o : Nat) : (applyDiscount st d u s o).orderItems = st.orderItems := rfl

theorem applyDiscount_orders (st : StoreState) (d u : Nat) (s : String)
    (o : Nat) : (applyDiscount st d u s o).orders = st.orders := rfl

theorem applyDiscount_payments (st : StoreState) (d u : Nat) (s : String)
    (o : Nat) : (applyDiscount st d u s o).payments = st.payments := rfl

theorem createPayment_orderItems (st : StoreState) (p : Payment) :
    (createPayment st p).2.orderItems = st.orderItems := rfl

theorem createPayment_orders (st : StoreState) (p : Payment) :
    (createPayment st p).2.orders = st.orders := rfl

theorem checkoutPipeline_verifierCalled (st : StoreState) (u : User)
    (s : String) (req : VerifyRequest) (tid now : String) (df vc : Bool) :
    (checkoutPipeline st u s req tid now df vc).verifierCalled = vc := by
  simp only [checkoutPipeline]
  repeat' split
  all_goals rfl

theorem checkoutPipeline_empty (st : StoreState) (u : User) (s : String)
    (req : VerifyRequest) (tid now : String) (df vc : Bool)
    (hempty : getCart st s = []) :
    checkoutPipeline st u s req tid now df vc
      = ⟨.failure 400 "No items in cart to create order" none, st, vc⟩ := by
  simp [checkoutPipeline, hempty]

theorem checkoutPipeline_ok (st : StoreState) (u : User) (s : String)
    (req : VerifyRequest) (tid now : String) (df vc : Bool)
    (hne : (getCart st s).isEmpty = false)
    (hok : (validateStockLoop st.variants (getCart st s)).1 = none) :
    (checkoutPipeline st u s req tid now df vc).response
      = .success
          (if req.paymentMethod == "cod" then "Order placed successfully"
           else "Payment successful and order created")
          (pipelineOrder st u s req tid now)
          (if req.paymentMethod == "razorpay"
           then some (pipelinePayment st u req) else none)
    ∧ (checkoutPipeline st u s req tid now df vc).state.orders
        = st.orders ++ [pipelineOrder st u s req tid now]
    ∧ ((req.paymentMethod == "razorpay") = false →
        (checkoutPipeline st u s req tid now df vc).state.payments
          = st.payments) := by
  simp only [checkoutPipeline, hne, Bool.false_eq_true, if_false]
  split
  · next msg heq => rw [heq] at hok; exact absurd hok (by simp)
  · refine ⟨?_, ?_, ?_⟩
    · by_cases hrz : (req.paymentMethod == "razorpay") = true
      · simp [hrz, pipelineOrder, pipelinePayment, createOrder, createPayment]
      · simp only [Bool.not_eq_true] at hrz
        simp [hrz, pipelineOrder, createOrder]
    · repeat' split
      all_goals
        simp_all [clearCart_orders, applyDiscount_orders,
          createPayment_orders, createOrderItems_orders, createOrder,
          pipelineOrder]
    · intro hrz
      repeat' split
      all_goals
        simp_all [clearCart_payments, applyDiscount_payments,
          createOrderItems_payments, createOrder]

theorem checkoutPipeline_success_inv (st : StoreState) (u : User) (s : String)
    (req : VerifyRequest) (tid now : String) (df vc : Bool) (msg : String)
    (o : Order) (p : Option Payment)
    (h : (checkoutPipeline st u s req tid now df vc).response
      = .success msg o p) :
    (getCart st s).isEmpty = false
    ∧ (validateStockLoop st.variants (getCart st s)).1 = none := by
  by_cases h1 : (getCart st s).isEmpty = true
  · rw [checkoutPipeline] at h
    rw [if_pos h1] at h
    exact absurd h (by simp)
  · have h1' : (getCart st s).isEmpty = false := by
      simpa using h1
    refine ⟨h1', ?_⟩
    cases hv : (validateStockLoop st.variants (getCart st s)).1 with
    | none => rfl
    | some m =>
        rw [checkoutPipeline] at h
        rw [if_neg h1] at h
        simp only [hv] at h
        exact absurd h (by simp)

theorem checkoutPipeline_df_irrelevant (st : StoreState) (u : User)
    (s : String) (req : VerifyRequest) (tid now : String) (df vc : Bool) :
    (checkoutPipeline st u s req tid now df vc).response
      = (checkoutPipeline st u s req tid now false vc).response
    ∧ (checkoutPipeline st u s req tid now df vc).state.orders
      = (checkoutPipeline st u s req tid now false vc).state.orders := by
  constructor
  · simp only [checkoutPipeline]
    repeat' split
    all_goals rfl
  · simp only [checkoutPipeline]
    repeat' split
    all_goals
      simp [clearCart_orders, applyDiscount_orders, createPayment_orders,
        createOrderItems_orders, createOrder]

theorem paymentsVerify_missing_session (st : StoreState) (user : User)
    (req : VerifyRequest) (hmac : String → String → String)
    (secret tid now : String) (df : Bool)
    (h1 : (req.sessionId.getD "" == "") = true) :
    paymentsVerify st user req hmac secret tid now df
      = ⟨.failure 400 "Missing session ID" none, st, false⟩ := by
  simp [paymentsVerify, h1]

theorem paymentsVerify_missing_fields (st : StoreState) (user : User)
    (req : VerifyRequest) (hmac : String → String → String)
    (secret tid now : String) (df : Bool)
    (h1 : (req.sessionId.getD "" == "") = false)
    (hrz : (req.paymentMethod == "razorpay") = true)
    (hf : (strMissing req.razorpayPaymentId || strMissing req.razorpayOrderId
        || strMissing req.razorpaySignature) = true) :
    paymentsVerify st user req hmac secret tid now df
      = ⟨.failure 400 "Missing required payment fields" none, st, false⟩ := by
  simp [paymentsVerify, h1, hrz, hf]

theorem paymentsVerify_bad_signature (st : StoreState) (user : User)
    (req : VerifyRequest) (hmac : String → String → String)
    (secret tid now : String) (df : Bool)
    (h1 : (req.sessionId.getD "" == "") = false)
    (hrz : (req.paymentMethod == "razorpay") = true)
    (hf : (strMissing req.razorpayPaymentId || strMissing req.razorpayOrderId
        || strMissing req.razorpaySignature) = false)
    (hsig : (hmac secret (req.razorpayOrderId.getD "" ++ "|"
        ++ req.razorpayPaymentId.getD "")
        != req.razorpaySignature.getD "") = true) :
    paymentsVerify st user req hmac secret tid now df
      = ⟨.failure 400 "Invalid payment signature" none, st, true⟩ := by
  simp only [paymentsVerify, h1, Bool.false_eq_true, if_false, hrz, if_true,
    hf, hsig]

theorem paymentsVerify_good_signature (st : StoreState) (user : User)
    (req : VerifyRequest) (hmac : String → String → String)
    (secret tid now : String) (df : Bool)
    (h1 : (req.sessionId.getD "" == "") = false)
    (hrz : (req.paymentMethod == "razorpay") = true)
    (hf : (strMissing req.razorpayPaymentId || strMissing req.razorpayOrderId
        || strMissing req.razorpaySignature) = false)
    (hsig : (hmac secret (req.razorpayOrderId.getD "" ++ "|"
        ++ req.razorpayPaymentId.getD "")
        != req.razorpaySignature.getD "") = false) :
    paymentsVerify st user req hmac secret tid now df
      = checkoutPipeline st user (req.sessionId.getD "") req tid now df
          true := by
  simp only [paymentsVerify, h1, Bool.false_eq_true, if_false, hrz, if_true,
    hf, hsig]

theorem paymentsVerify_not_razorpay (st : StoreState) (user : User)
    (req : VerifyRequest) (hmac : String → String → String)
    (secret tid now : String) (df : Bool)
    (h1 : (req.sessionId.getD "" == "") = false)
    (hrz : (req.paymentMethod == "razorpay") = false) :
    paymentsVerify st user req hmac secret tid now df
      = checkoutPipeline st user (req.sessionId.getD "") req tid now df
          false := by
  simp only [paymentsVerify, h1, Bool.false_eq_true, if_false, hrz]

theorem paymentsVerify_success_as_pipeline (st : StoreState) (user : User)
    (req : VerifyRequest) (hmac : String → String → String)
    (secret tid now : String) (df : Bool) (msg : String) (o : Order)
    (p : Option Payment)
    (h : (paymentsVerify st user req hmac secret tid now df).response
      = .success msg o p) :
    ∃ vc, paymentsVerify st user req hmac secret tid now df
      = checkoutPipeline st user (req.sessionId.getD "") req tid now df
          vc := by
  by_cases h1 : (req.sessionId.getD "" == "") = true
  · rw [paymentsVerify_missing_session st user req hmac secret tid now df h1]
      at h
    exact absurd h (by simp)
  · have h1' : (req.sessionId.getD "" == "") = false := by
      simpa using h1
    by_cases hrz : (req.paymentMethod == "razorpay") = true
    · by_cases hf : (strMissing req.razorpayPaymentId
          || strMissing req.razorpayOrderId
          || strMissing req.razorpaySignature) = true
      · rw [paymentsVerify_missing_fields st user req hmac secret tid now df
          h1' hrz hf] at h
        exact absurd h (by simp)
      · have hf' : (strMissing req.razorpayPaymentId
            || strMissing req.razorpayOrderId
            || strMissing req.razorpaySignature) = false := by
          simpa using hf
        by_cases hsig : (hmac secret (req.razorpayOrderId.getD "" ++ "|"
            ++ req.razorpayPaymentId.getD "")
            != req.razorpaySignature.getD "") = true
        · rw [paymentsVerify_bad_signature st user req hmac secret tid now df
            h1' hrz hf' hsig] at h
          exact absurd h (by simp)
        · have hsig' : (hmac secret (req.razorpayOrderId.getD "" ++ "|"
              ++ req.razorpayPaymentId.getD "")
              != req.razorpaySignature.getD "") = false := by
            simpa using hsig
          exact ⟨true, paymentsVerify_good_signature st user req hmac secret
            tid now df h1' hrz hf' hsig'⟩
    · have hrz' : (req.paymentMethod == "razorpay") = false := by
        simpa using hrz
      exact ⟨false, paymentsVerify_not_razorpay st user req hmac secret tid
        now df h1' hrz'⟩

theorem paymentsVerify_df_irrelevant (st : StoreState) (user : User)
    (req : VerifyRequest) (hmac : String → String → String)
    (secret tid now : String) (df : Bool) :
    (paymentsVerify st user req hmac secret tid now df).response
      = (paymentsVerify st user req hmac secret tid now false).response
    ∧ (paymentsVerify st user req hmac secret tid now df).state.orders
      = (paymentsVerify st user req hmac secret tid now false).state.orders := by
  by_cases h1 : (req.sessionId.getD "" == "") = true
  · rw [paymentsVerify_missing_session st user req hmac secret tid now df h1,
      paymentsVerify_missing_session st user req hmac secret tid now false h1]
    exact ⟨rfl, rfl⟩
  · have h1' : (req.sessionId.getD "" == "") = false := by simpa using h1
    by_cases hrz : (req.paymentMethod == "razorpay") = true
    · by_cases hf : (strMissing req.razorpayPaymentId
          || strMissing req.razorpayOrderId
          || strMissing req.razorpaySignature) = true
      · rw [paymentsVerify_missing_fields st user req hmac secret tid now df
          h1' hrz hf, paymentsVerify_missing_fields st user req hmac secret
          tid now false h1' hrz hf]
        exact ⟨rfl, rfl⟩
      · have hf' : (strMissing req.razorpayPaymentId
            || strMissing req.razorpayOrderId
            || strMissing req.razorpaySignature) = false := by simpa using hf
        by_cases hsig : (hmac secret (req.razorpayOrderId.getD "" ++ "|"
            ++ req.razorpayPaymentId.getD "")
            != req.razorpaySignature.getD "") = true
        · rw [paymentsVerify_bad_signature st user req hmac secret tid now df
            h1' hrz hf' hsig, paymentsVerify_bad_signature st user req hmac
            secret tid now false h1' hrz hf' hsig]
          exact ⟨rfl, rfl⟩
        · have hsig' : (hmac secret (req.razorpayOrderId.getD "" ++ "|"
              ++ req.razorpayPaymentId.getD "")
              != req.razorpaySignature.getD "") = false := by simpa using hsig
          rw [paymentsVerify_good_signature st user req hmac secret tid now df
            h1' hrz hf' hsig', paymentsVerify_good_signature st user req hmac
            secret tid now false h1' hrz hf' hsig']
          exact checkoutPipeline_df_irrelevant st user (req.sessionId.getD "")
            req tid now df true
    · have hrz' : (req.paymentMethod == "razorpay") = false := by
        simpa using hrz
      rw [paymentsVerify_not_razorpay st user req hmac secret tid now df h1'
        hrz', paymentsVerify_not_razorpay st user req hmac secret tid now
        false h1' hrz']
      exact checkoutPipeline_df_irrelevant st user (req.sessionId.getD "")
        req tid now df false

theorem checkoutPipeline_payments_not_razorpay (st : StoreState) (u : User)
    (s : String) (req : VerifyRequest) (tid now : String) (df vc : Bool)
    (hrz : (req.paymentMethod == "razorpay") = false) :
    (checkoutPipeline st u s req tid now df vc).state.payments
      = st.payments := by
  simp only [checkoutPipeline]
  repeat' split
  all_goals
    simp_all [clearCart_payments, applyDiscount_payments,
      createOrderItems_payments, createOrder, createPayment]

/-! ### Claim theorems -/

unseal Rat.mul Rat.inv Rat.add Nat.gcd in
/-- C1: for a checkout whose cart is exactly one line (variant 5, quantity 2,
unit price 100) and stock 2, the checkout succeeds, variant 5's stock becomes
0, exactly one Order with exactly one Order Item (quantity 2, unit price 100,
hence total 200) is created, and the session's cart is cleared. -/
theorem c1_single_line_checkout_scenario :
    c1Result.response = .success "Order placed successfully" c1Order none
    ∧ c1Result.state.variants = [⟨5, 10, 100, none, 0⟩]
    ∧ c1Result.state.orders = [c1Order]
    ∧ c1Result.state.orderItems = [⟨1, 10, 5, 2, 100⟩]
    ∧ c1Result.state.orderItems.map (fun it => it.price * (it.quantity : ℚ))
        = [200]
    ∧ c1Result.state.carts = [] := by
  decide

/-- C2: with available stock `N` on a variant, any serialization of `N + 1`
concurrent single-unit reservation attempts (the Stock Ledger's
check-and-decrement is atomic per variant, so every interleaving is some
serialization of these identical attempts) yields exactly `N` successes, one
failure, final stock 0; and no number of attempts ever reserves more than
`N` units in total. -/
theorem c2_no_oversell (v : Variant) (N : Nat) (hN : v.stockQuantity = N) :
    (runLedger [v] v.id (N + 1)).1 = N
    ∧ (N + 1) - (runLedger [v] v.id (N + 1)).1 = 1
    ∧ (runLedger [v] v.id (N + 1)).2.map Variant.stockQuantity = [0]
    ∧ ∀ k : Nat, (runLedger [v] v.id k).1 ≤ N := by
  obtain ⟨i, pid, pr, dp, s⟩ := v
  simp only [Variant.stockQuantity] at hN
  subst hN
  refine ⟨?_, ?_, ?_, ?_⟩
  · simp [runLedger_singleton]
  · simp [runLedger_singleton]
  · simp [runLedger_singleton]
  · intro k
    simp [runLedger_singleton]

/-- Witness for C2 at stock 3: four attempts give three successes, and seven
attempts still reserve at most three units. -/
theorem c2_no_oversell_witness :
    (⟨5, 10, 100, none, 3⟩ : Variant).stockQuantity = 3
    ∧ (runLedger [(⟨5, 10, 100, none, 3⟩ : Variant)]
        (Variant.id ⟨5, 10, 100, none, 3⟩) 4).1 = 3
    ∧ (runLedger [(⟨5, 10, 100, none, 3⟩ : Variant)]
        (Variant.id ⟨5, 10, 100, none, 3⟩) 7).1 ≤ 3 :=
  ⟨rfl, (c2_no_oversell ⟨5, 10, 100, none, 3⟩ 3 rfl).1,
    (c2_no_oversell ⟨5, 10, 100, none, 3⟩ 3 rfl).2.2.2 7⟩

/-- C3 counterexample: for the two-line cart (variant 1 qty 1 with stock 5,
variant 2 qty 3 with stock 2) the checkout aborts, but the HTTP response has
status 500 (not 400, the product name appearing in the `error` field), and
while no Order is created, variant 1's stock has dropped from 5 to 4: the
passing line's reservation is not released. -/
theorem c3_insufficient_stock_counterexample :
    c3Result.response =
      .failure 500 "Failed to process order"
        (some "Insufficient stock for Beans")
    ∧ c3Result.state.orders = []
    ∧ c3State.variants.map Variant.stockQuantity = [5, 2]
    ∧ c3Result.state.variants.map Variant.stockQuantity = [4, 2] := by
  decide

/-- C3 (amended): when any cart line's requested quantity exceeds the
variant's available stock, the checkout aborts with an HTTP 500 response
whose `error` field names the (first) offending product; no Order is created;
but stock reservations already made for other lines of the same attempt are
not released. -/
theorem c3_amended_insufficient_stock_abort (st : StoreState) (user : User)
    (sessionId : String) (req : VerifyRequest) (tid now : String)
    (df vc : Bool) (msg : String) (vs : List Variant)
    (hne : (getCart st sessionId).isEmpty = false)
    (hfail : validateStockLoop st.variants (getCart st sessionId)
      = (some msg, vs)) :
    checkoutPipeline st user sessionId req tid now df vc =
      ⟨.failure 500 "Failed to process order" (some msg),
        { st with variants := vs }, vc⟩
    ∧ ({ st with variants := vs } : StoreState).orders = st.orders
    ∧ ∃ item ∈ getCart st sessionId,
        msg = "Insufficient stock for " ++ item.product.name := by
  refine ⟨?_, rfl, validateStockLoop_some _ _ _ (by rw [hfail])⟩
  simp [checkoutPipeline, hne, hfail]

/-- Witness for the amended C3 at the two-line fixture. -/
theorem c3_amended_witness :
    ((getCart c3State "sess3").isEmpty = false
      ∧ validateStockLoop c3State.variants (getCart c3State "sess3")
          = (some "Insufficient stock for Beans",
             [⟨1, 10, 100, none, 4⟩, ⟨2, 11, 150, none, 2⟩]))
    ∧ checkoutPipeline c3State exUser "sess3" c3Req "DEF456" "2025-01-01"
        false false =
      ⟨.failure 500 "Failed to process order"
          (some "Insufficient stock for Beans"),
        { c3State with
            variants := [⟨1, 10, 100, none, 4⟩, ⟨2, 11, 150, none, 2⟩] },
        false⟩ :=
  ⟨⟨by decide, by decide⟩,
    (c3_amended_insufficient_stock_abort c3State exUser "sess3" c3Req
      "DEF456" "2025-01-01" false false "Insufficient stock for Beans"
      [⟨1, 10, 100, none, 4⟩, ⟨2, 11, 150, none, 2⟩]
      (by decide) (by decide)).1⟩

/-- C4: for every electronic-payment checkout whose supplied signature does
not equal the HMAC-SHA256 of `orderRef|paymentRef` under the server-held
secret, the request is rejected with 400 before any persistence: the store is
returned unchanged — no Order, Order Item or Payment row, and no stock
mutation. -/
theorem c4_invalid_signature_rejected (st : StoreState) (user : User)
    (req : VerifyRequest) (hmac : String → String → String)
    (secret tid now : String) (df : Bool)
    (hsess : (req.sessionId.getD "" == "") = false)
    (hm : req.paymentMethod = "razorpay")
    (hp : strMissing req.razorpayPaymentId = false)
    (ho : strMissing req.razorpayOrderId = false)
    (hs : strMissing req.razorpaySignature = false)
    (hsig : hmac secret (req.razorpayOrderId.getD "" ++ "|"
        ++ req.razorpayPaymentId.getD "") ≠ req.razorpaySignature.getD "") :
    paymentsVerify st user req hmac secret tid now df =
      ⟨.failure 400 "Invalid payment signature" none, st, true⟩
    ∧ (paymentsVerify st user req hmac secret tid now df).state.orders
        = st.orders
    ∧ (paymentsVerify st user req hmac secret tid now df).state.orderItems
        = st.orderItems
    ∧ (paymentsVerify st user req hmac secret tid now df).state.payments
        = st.payments
    ∧ (paymentsVerify st user req hmac secret tid now df).state.variants
        = st.variants := by
  have h : paymentsVerify st user req hmac secret tid now df =
      ⟨.failure 400 "Invalid payment signature" none, st, true⟩ := by
    simp [paymentsVerify, hsess, hm, hp, ho, hs, hsig]
  exact ⟨h, by rw [h], by rw [h], by rw [h], by rw [h]⟩

/-- Witness for C4: a concrete tampered signature is rejected with the store
unchanged. -/
theorem c4_invalid_signature_witness :
    ((c9BadReq.sessionId.getD "" == "") = false
      ∧ c9BadReq.paymentMethod = "razorpay"
      ∧ strMissing c9BadReq.razorpayPaymentId = false
      ∧ strMissing c9BadReq.razorpayOrderId = false
      ∧ strMissing c9BadReq.razorpaySignature = false
      ∧ exHmac "sec" (c9BadReq.razorpayOrderId.getD "" ++ "|"
          ++ c9BadReq.razorpayPaymentId.getD "")
          ≠ c9BadReq.razorpaySignature.getD "")
    ∧ paymentsVerify c3State exUser c9BadReq exHmac "sec" "T" "t0" false =
        ⟨.failure 400 "Invalid payment signature" none, c3State, true⟩ :=
  ⟨⟨by decide, rfl, by decide, by decide, by decide, by decide⟩,
    (c4_invalid_signature_rejected c3State exUser c9BadReq exHmac "sec" "T"
      "t0" false (by decide) rfl (by decide) (by decide) (by decide)
      (by decide)).1⟩

/-- C5: every order item persisted by an accepted checkout carries the unit
price captured from the cart's resolved variant at checkout time — its
discount price if set, else its regular price — and a later admin update of
any variant's price, discount price or stock leaves the stored order items
untouched (the price is a point-in-time copy, never recomputed from live
variant data). -/
theorem c5_price_capture (st : StoreState) (user : User) (sessionId : String)
    (req : VerifyRequest) (tid now : String) (df vc : Bool)
    (hne : (getCart st sessionId).isEmpty = false)
    (hok : (validateStockLoop st.variants (getCart st sessionId)).1 = none) :
    (checkoutPipeline st user sessionId req tid now df vc).state.orderItems =
      st.orderItems ++ (getCart st sessionId).map (fun item =>
        { orderId := st.nextOrderId, productId := item.product.id,
          variantId := item.variant.id, quantity := item.quantity,
          price := item.variant.discountPrice.getD item.variant.price })
    ∧ ∀ (vid : Nat) (p : ℚ) (dp : Option ℚ) (sq : Nat),
        (updateVariant
            (checkoutPipeline st user sessionId req tid now df vc).state
            vid p dp sq).orderItems =
          (checkoutPipeline st user sessionId req tid now df vc).state.orderItems := by
  refine ⟨?_, fun vid p dp sq => rfl⟩
  simp only [checkoutPipeline, hne, Bool.false_eq_true, if_false]
  split
  · next msg heq => rw [heq] at hok; exact absurd hok (by simp)
  · repeat' split
    all_goals
      simp [clearCart_orderItems, applyDiscount_orderItems,
        createPayment_orderItems, createOrderItems_orderItems, createOrder]

/-- Witness for C5 at the C1 fixture: the stored item is (qty 2, price 100),
and a later variant price update does not change it. -/
theorem c5_price_capture_witness :
    ((getCart c1State "sess1").isEmpty = false
      ∧ (validateStockLoop c1State.variants (getCart c1State "sess1")).1
          = none)
    ∧ (checkoutPipeline c1State exUser "sess1" c1Req "ABC123" "2025-01-01"
        false false).state.orderItems = [⟨1, 10, 5, 2, 100⟩]
    ∧ (updateVariant
        (checkoutPipeline c1State exUser "sess1" c1Req "ABC123" "2025-01-01"
          false false).state 5 999 (some 7) 50).orderItems =
      (checkoutPipeline c1State exUser "sess1" c1Req "ABC123" "2025-01-01"
        false false).state.orderItems := by
  have h := c5_price_capture c1State exUser "sess1" c1Req "ABC123"
    "2025-01-01" false false (by decide) (by decide)
  exact ⟨⟨by decide, by decide⟩, h.1.trans (by decide), h.2 5 999 (some 7) 50⟩

/-- C6 counterexample: after a checkout that captured customer email
`old@x.com` and a subsequent account-email change to `new@x.com`, a tracking
lookup with the order's captured customer email returns not-found, while a
lookup with `new@x.com` — which does NOT match the captured email — returns
the order's contents: the handler compares against the owning user's current
email, not the captured snapshot. -/
theorem c6_tracking_email_counterexample :
    c6Final.orders.map (fun o => o.customerInfo.email) = ["old@x.com"]
    ∧ c6Final.users.map User.email = ["new@x.com"]
    ∧ trackOrder c6Final "ABC123" "old@x.com"
        = .notFound
            "No order found with this order number and email combination."
    ∧ trackOrder c6Final "ABC123" "new@x.com"
        = .found "ABC123" "confirmed" [("Coffee", 1, 100)]
            [⟨"confirmed", "Your order has been placed successfully",
              "2025-01-01"⟩] := by
  decide

/-- C6 (amended): the tracking lookup authorizes against the owning user
account's *current* email (trimmed, case-insensitive), not the captured
snapshot: a mismatch with that current email yields not-found and never the
order contents, and a match yields the order's tracking details. -/
theorem c6_amended_tracking_authorization (st : StoreState)
    (orderNumber email : String) (o : Order) (uid : Nat) (u : User)
    (hON : (jsTrim orderNumber == "") = false)
    (hE : (jsTrim email == "") = false)
    (hfind : st.orders.find?
        (fun o => o.trackingId == jsTrim orderNumber && o.userId.isSome)
      = some o)
    (huid : o.userId = some uid)
    (hu : st.users.find? (fun u => u.id == uid) = some u) :
    ((jsToLower u.email == jsToLower (jsTrim email)) = false →
      trackOrder st orderNumber email
        = .notFound
            "No order found with this order number and email combination.")
    ∧ ((jsToLower u.email == jsToLower (jsTrim email)) = true →
      trackOrder st orderNumber email
        = .found o.trackingId o.status (trackedItems st o.id)
            o.statusTimeline) := by
  constructor
  · intro hmail
    have hmail' : jsToLower u.email ≠ jsToLower (jsTrim email) := by
      simpa using hmail
    simp [trackOrder, hON, hE, hfind, huid, hu, hmail']
  · intro hmail
    have hmail' : jsToLower u.email = jsToLower (jsTrim email) := by
      simpa using hmail
    simp [trackOrder, hON, hE, hfind, huid, hu, hmail']

unseal Rat.mul Rat.inv Nat.gcd in
/-- Witness for the amended C6: with the user's current email the lookup
returns the order's tracking details. -/
theorem c6_amended_witness :
    ((jsTrim "ABC123" == "") = false
      ∧ (jsTrim "new@x.com" == "") = false
      ∧ c6Final.orders.find?
          (fun o => o.trackingId == jsTrim "ABC123" && o.userId.isSome)
          = some c6Order
      ∧ c6Order.userId = some 1
      ∧ c6Final.users.find? (fun u => u.id == 1)
          = some ⟨1, "Asha", "new@x.com"⟩)
    ∧ trackOrder c6Final "ABC123" "new@x.com"
        = .found c6Order.trackingId c6Order.status
            (trackedItems c6Final c6Order.id) c6Order.statusTimeline := by
  have h := (c6_amended_tracking_authorization c6Final "ABC123" "new@x.com"
    c6Order 1 ⟨1, "Asha", "new@x.com"⟩ (by decide) (by decide)
    (by decide) (by decide) (by decide)).2 (by decide)
  exact ⟨⟨by decide, by decide, by decide, by decide, by decide⟩, h⟩

/-- C7: if discount-usage recording throws after the order has been durably
created, the checkout still succeeds: the response is the same success with
the same order and payment as when recording succeeds, and the returned order
is the persisted order — status `confirmed`, carrying the allocated id. -/
theorem c7_discount_failure_nonblocking (st : StoreState) (user : User)
    (req : VerifyRequest) (hmac : String → String → String)
    (secret tid now : String) (msg : String) (o : Order) (p : Option Payment)
    (h : (paymentsVerify st user req hmac secret tid now false).response
      = .success msg o p) :
    (paymentsVerify st user req hmac secret tid now true).response
      = .success msg o p
    ∧ o.status = "confirmed"
    ∧ o.id = st.nextOrderId
    ∧ o ∈ (paymentsVerify st user req hmac secret tid now true).state.orders := by
  have hdf := paymentsVerify_df_irrelevant st user req hmac secret tid now
    true
  obtain ⟨vc, he⟩ := paymentsVerify_success_as_pipeline st user req hmac
    secret tid now false msg o p h
  have h2 : (checkoutPipeline st user (req.sessionId.getD "") req tid now
      false vc).response = .success msg o p := by
    rw [← he]; exact h
  obtain ⟨hne, hok⟩ := checkoutPipeline_success_inv st user
    (req.sessionId.getD "") req tid now false vc msg o p h2
  have hokk := checkoutPipeline_ok st user (req.sessionId.getD "") req tid
    now false vc hne hok
  have hcmp := hokk.1.symm.trans h2
  injection hcmp with e1 e2 e3
  refine ⟨hdf.1.trans h, ?_, ?_, ?_⟩
  · rw [← e2]; rfl
  · rw [← e2]; rfl
  · rw [hdf.2, he, hokk.2.1, e2]
    exact List.mem_append_right _ (List.mem_singleton_self o)

unseal Rat.mul Rat.inv Nat.gcd in
/-- Witness for C7: a checkout with a discount whose usage recording throws
still returns the same created order. -/
theorem c7_discount_failure_witness :
    (paymentsVerify c1State exUser c7Req exHmac "sec" "ABC123" "2025-01-01"
        false).response = .success "Order placed successfully" c1Order none
    ∧ (paymentsVerify c1State exUser c7Req exHmac "sec" "ABC123" "2025-01-01"
        true).response = .success "Order placed successfully" c1Order none
    ∧ c1Order.status = "confirmed"
    ∧ c1Order.id = c1State.nextOrderId
    ∧ c1Order ∈ (paymentsVerify c1State exUser c7Req exHmac "sec" "ABC123"
        "2025-01-01" true).state.orders := by
  have h := c7_discount_failure_nonblocking c1State exUser c7Req exHmac
    "sec" "ABC123" "2025-01-01" "Order placed successfully" c1Order none
    (by decide)
  exact ⟨by decide, h.1, h.2.1, h.2.2.1, h.2.2.2⟩

/-- C8: for every cash-on-delivery checkout, the handler never executes the
signature verification, no Payment row is created, and whenever the checkout
succeeds, the created order has paymentMethod `cod`, status `confirmed`, a
null payment reference, the payment returned is null, and the COD success
message is used. -/
theorem c8_cod_checkout (st : StoreState) (user : User) (req : VerifyRequest)
    (hmac : String → String → String) (secret tid now : String) (df : Bool)
    (hcod : req.paymentMethod = "cod")
    (hsess : (req.sessionId.getD "" == "") = false) :
    (paymentsVerify st user req hmac secret tid now df).verifierCalled = false
    ∧ (paymentsVerify st user req hmac secret tid now df).state.payments
        = st.payments
    ∧ ∀ msg o p,
        (paymentsVerify st user req hmac secret tid now df).response
          = .success msg o p →
        o.paymentMethod = "cod" ∧ o.status = "confirmed"
        ∧ o.paymentId = none ∧ p = none
        ∧ msg = "Order placed successfully" := by
  have hrz : (req.paymentMethod == "razorpay") = false := by
    rw [hcod]; decide
  have he := paymentsVerify_not_razorpay st user req hmac secret tid now df
    hsess hrz
  refine ⟨?_, ?_, ?_⟩
  · rw [he]
    exact checkoutPipeline_verifierCalled st user (req.sessionId.getD "")
      req tid now df false
  · rw [he]
    exact checkoutPipeline_payments_not_razorpay st user
      (req.sessionId.getD "") req tid now df false hrz
  · intro msg o p h
    rw [he] at h
    obtain ⟨hne, hok⟩ := checkoutPipeline_success_inv st user
      (req.sessionId.getD "") req tid now df false msg o p h
    have hokk := checkoutPipeline_ok st user (req.sessionId.getD "") req tid
      now df false hne hok
    have hcmp := hokk.1.symm.trans h
    injection hcmp with e1 e2 e3
    have hcodb : (req.paymentMethod == "cod") = true := by
      rw [hcod]; decide
    refine ⟨?_, ?_, ?_, ?_, ?_⟩
    · rw [← e2]; exact hcod
    · rw [← e2]; rfl
    · rw [← e2]; simp [pipelineOrder, hrz]
    · rw [← e3]; simp [hrz]
    · rw [← e1]; simp [hcodb]

unseal Rat.mul Rat.inv Nat.gcd in
/-- Witness for C8 at the C1 COD fixture. -/
theorem c8_cod_witness :
    (c1Req.paymentMethod = "cod" ∧ (c1Req.sessionId.getD "" == "") = false)
    ∧ c1Result.verifierCalled = false
    ∧ c1Result.state.payments = c1State.payments
    ∧ c1Order.paymentMethod = "cod" ∧ c1Order.status = "confirmed"
    ∧ c1Order.paymentId = none := by
  have h := c8_cod_checkout c1State exUser c1Req exHmac "sec" "ABC123"
    "2025-01-01" false rfl (by decide)
  have h3 := h.2.2 "Order placed successfully" c1Order none (by decide)
  exact ⟨⟨rfl, by decide⟩, h.1, h.2.1, h3.1, h3.2.1, h3.2.2.1⟩

/-- C9 counterexample: with an empty session cart and an electronic payment
whose signature is invalid, the handler rejects with `Invalid payment
signature` — the Payment Verifier ran first — not with the empty-cart
rejection the claim requires regardless of the signature. -/
theorem c9_empty_cart_counterexample :
    getCart c9State "sess9" = []
    ∧ paymentsVerify c9State exUser c9BadReq exHmac "sec" "T" "t0" false
        = ⟨.failure 400 "Invalid payment signature" none, c9State, true⟩ := by
  decide

/-- C9 (amended): the handler checks the payment signature *before* reading
the cart: for an empty cart, checkout fails with the empty-cart rejection
when the payment method is non-electronic or the signature verifies, but an
electronic payment with an invalid signature fails with the signature
rejection even on an empty cart. -/
theorem c9_amended_order_of_checks (st : StoreState) (user : User)
    (req : VerifyRequest) (hmac : String → String → String)
    (secret tid now : String) (df : Bool)
    (hsess : (req.sessionId.getD "" == "") = false)
    (hempty : getCart st (req.sessionId.getD "") = []) :
    ((req.paymentMethod == "razorpay") = false →
      paymentsVerify st user req hmac secret tid now df
        = ⟨.failure 400 "No items in cart to create order" none, st, false⟩)
    ∧ ((req.paymentMethod == "razorpay") = true →
        (strMissing req.razorpayPaymentId || strMissing req.razorpayOrderId
          || strMissing req.razorpaySignature) = false →
        (hmac secret (req.razorpayOrderId.getD "" ++ "|"
          ++ req.razorpayPaymentId.getD "")
          != req.razorpaySignature.getD "") = false →
        paymentsVerify st user req hmac secret tid now df
          = ⟨.failure 400 "No items in cart to create order" none, st, true⟩)
    ∧ ((req.paymentMethod == "razorpay") = true →
        (strMissing req.razorpayPaymentId || strMissing req.razorpayOrderId
          || strMissing req.razorpaySignature) = false →
        (hmac secret (req.razorpayOrderId.getD "" ++ "|"
          ++ req.razorpayPaymentId.getD "")
          != req.razorpaySignature.getD "") = true →
        paymentsVerify st user req hmac secret tid now df
          = ⟨.failure 400 "Invalid payment signature" none, st, true⟩) := by
  refine ⟨?_, ?_, ?_⟩
  · intro hrz
    rw [paymentsVerify_not_razorpay st user req hmac secret tid now df hsess
      hrz]
    exact checkoutPipeline_empty st user (req.sessionId.getD "") req tid now
      df false hempty
  · intro hrz hf hsig
    rw [paymentsVerify_good_signature st user req hmac secret tid now df
      hsess hrz hf hsig]
    exact checkoutPipeline_empty st user (req.sessionId.getD "") req tid now
      df true hempty
  · intro hrz hf hsig
    exact paymentsVerify_bad_signature st user req hmac secret tid now df
      hsess hrz hf hsig

/-- Witness for the amended C9: an empty cart with a valid signature is
rejected with the empty-cart message. -/
theorem c9_amended_witness :
    ((c9GoodReq.sessionId.getD "" == "") = false
      ∧ getCart c9State (c9GoodReq.sessionId.getD "") = [])
    ∧ paymentsVerify c9State exUser c9GoodReq exHmac "sec" "T" "t0" false
        = ⟨.failure 400 "No items in cart to create order" none, c9State,
            true⟩ := by
  have h := (c9_amended_order_of_checks c9State exUser c9GoodReq exHmac
    "sec" "T" "t0" false (by decide) (by decide)).2.1 (by decide) (by decide)
    (by decide)
  exact ⟨⟨by decide, by decide⟩, h⟩

unseal Rat.mul Rat.inv Rat.add Nat.gcd in
/-- C10: for every accepted checkout, the persisted order's total is the
client-supplied request amount divided by 100, never derived from the cart:
concretely, a request whose amount (500 paise → 5) differs from the cart's
true total (200) still succeeds and stores the client-supplied total. -/
theorem c10_total_from_client_amount (st : StoreState) (user : User)
    (req : VerifyRequest) (hmac : String → String → String)
    (secret tid now : String) (df : Bool) (msg : String) (o : Order)
    (p : Option Payment)
    (h : (paymentsVerify st user req hmac secret tid now df).response
      = .success msg o p) :
    o.total = req.amount / 100
    ∧ (c10Result.response = .success "Order placed successfully" c10Order none
       ∧ c10Order.total = 5
       ∧ cartLinesTotal (getCart c10State "sess10") = 200
       ∧ c10Order.total ≠ cartLinesTotal (getCart c10State "sess10")) := by
  refine ⟨?_, by decide, by decide, by decide, by decide⟩
  obtain ⟨vc, he⟩ := paymentsVerify_success_as_pipeline st user req hmac
    secret tid now df msg o p h
  rw [he] at h
  obtain ⟨hne, hok⟩ := checkoutPipeline_success_inv st user
    (req.sessionId.getD "") req tid now df vc msg o p h
  have hokk := checkoutPipeline_ok st user (req.sessionId.getD "") req tid
    now df vc hne hok
  have hcmp := hokk.1.symm.trans h
  injection hcmp with e1 e2 e3
  rw [← e2]; rfl

unseal Rat.mul Rat.inv Nat.gcd in
/-- Witness for C10 at the mismatched-amount fixture. -/
theorem c10_total_witness :
    c10Result.response = .success "Order placed successfully" c10Order none
    ∧ c10Order.total = c10Req.amount / 100 := by
  have h := c10_total_from_client_amount c10State exUser c10Req exHmac "sec"
    "GHI789" "2025-01-01" false "Order placed successfully" c10Order none
    (by decide)
  exact ⟨by decide, h.1⟩
